import Mathlib

/-!
Verification of the voicemod-websocket client (`src/websocket.ts`,
`src/util/get-voicemod-port.ts`, `src/util/action-map.ts`) against its
natural-language specification.

The TypeScript class `VoicemodWebsocket` is shallowly embedded: its
mutable fields become a `SessionState` record, each method becomes a pure
function from state (plus the environment's replies, an `Oracle`) to a new
state together with the observable trace (public events emitted, actions
sent on the wire, and whether the method threw).  The port-discovery
helper is embedded as a pure function over an arbitrary reachability
predicate on ports.
-/

namespace Voicemod

/-! ## Data model (from `src/types.ts`) -/

/-- A voice record (type `Voice` in `src/types.ts`). -/
structure Voice where
  id : String
  friendlyName : String
  enabled : Bool := true
  favorited : Bool := false
  isNew : Bool := false
  isCustom : Bool := false
  bitmapChecksum : String := ""
  deriving Repr, DecidableEq

/-- A soundboard record (type `Soundboard` in `src/types.ts`); only the
`id` field is inspected by the embedded code (`filter` by id), the rest of
the record passes through untouched, so the embedding keeps `id` and a
representative `name`. -/
structure Soundboard where
  id : String
  name : String := ""
  deriving Repr, DecidableEq

/-- A meme record (type `Meme` in `src/types.ts`); opaque to the embedded
code, which only stores and returns it. -/
structure Meme where
  name : String
  fileName : String := ""
  deriving Repr, DecidableEq

/-- The status object of an authentication reply:
`payload.status.{code,message}`. -/
structure StatusObj where
  code : String
  message : String := ""
  deriving Repr, DecidableEq

/-- The `payload` of an authentication reply. -/
structure RegisterPayload where
  status : StatusObj
  deriving Repr, DecidableEq

/-- The `actionObject` of an inbound envelope; the router reads
`actionObject.voiceID` (rule for `voiceLoadedEvent`) and
`actionObject.soundboards` (rule for `getAllSoundboard`).  Fields the
router never reads are not represented. -/
structure ActionObject where
  voiceID : Option String := none
  soundboards : Option (List Soundboard) := none
  deriving Repr, DecidableEq

/-- An inbound message envelope (type `MessageEvent` in `src/types.ts`):
all fields are optional at the wire level, mirrored with `Option`. -/
structure MessageEvent where
  msg : Option String := none
  action : Option String := none
  id : Option String := none
  actionType : Option String := none
  actionID : Option String := none
  actionObject : ActionObject := {}
  payload : Option RegisterPayload := none
  deriving Repr, DecidableEq

/-- The cache of last-known app state (type `VoiceState` in
`src/types.ts`): every field optional, absent until observed. -/
structure VoiceState where
  port : Option Nat := none
  voiceList : Option (List Voice) := none
  currentVoice : Option String := none
  user : Option String := none
  userLicense : Option String := none
  soundboards : Option (List Soundboard) := none
  activeSoundboard : Option String := none
  memes : Option (List Meme) := none
  hearMyselfStatus : Option Bool := none
  voiceChangerStatus : Option Bool := none
  backgroundEffectsStatus : Option Bool := none
  muteMemeForMeStatus : Option Bool := none
  muteMicStatus : Option Bool := none
  deriving Repr, DecidableEq

/-- Constructor options of `VoicemodWebsocket`. -/
structure Options where
  host : String
  clientKey : String
  reconnect : Bool := false
  timeout : Nat := 1000
  maxRetries : Nat := 5
  deriving Repr, DecidableEq

/-- The status of one pending-request promise created by
`internalEvent(id)`: such a promise only ever carries a `resolve`
callback, so the embedding records `pending` or `resolved`; a `rejected`
status is included so that the spec's "fail every outstanding request"
can even be stated. -/
inductive PromiseStatus where
  | pending
  | resolved (v : MessageEvent)
  | rejected
  deriving Repr, DecidableEq

/-- The mutable fields of a `VoicemodWebsocket` instance, together with
the bookkeeping of the private `internalEvents` emitter:
`listeners` is the multiset (list) of correlation ids with a registered
`once` listener, and `promiseLog` records every promise handed out by
`internalEvent` with its current status. -/
structure SessionState where
  connected : Bool := false
  ws : Option Unit := none
  forceDisconnect : Bool := false
  currentRetry : Nat := 1
  voicemodState : VoiceState := {}
  listeners : List String := []
  promiseLog : List (String × PromiseStatus) := []
  deriving Repr, DecidableEq

/-- A public event emitted on the `EventEmitter` surface, with the
payload the code passes to `emit`. -/
inductive Emitted where
  | AllEvents (e : MessageEvent)
  | ClientRegistrationPending
  | ClientRegistered (reply : MessageEvent)
  | ClientRegistrationFailed
  | Connected
  | Disconnected
  | ConnectionOpened
  | ConnectionClosed
  | ConnectionError
  | ConnectionRetry
  | Correlated (eventName : Option String) (obj : ActionObject)
  | VoiceChanged (v : Option Voice)
  | VoiceListChanged (vs : List Voice)
  | VoiceChangerStatusChanged (b : Bool)
  | BackgroundEffectStatusChanged (b : Bool)
  | HearMyselfStatusChanged (b : Bool)
  | MuteMicStatusChanged (b : Bool)
  | MuteMemeForMeStatusChanged (b : Bool)
  | BadLanguageStatusChanged (b : Bool)
  | SoundboardListChanged (sbs : Option (List Soundboard))
  | UserChanged (u : String)
  | UserLicenseChanged (l : String)
  | MemeListChanged (ms : List Meme)
  deriving Repr, DecidableEq

/-! ## JavaScript semantics helpers -/

/-- JS truthiness of an optional string field: present and non-empty. -/
def truthyStr : Option String → Bool
  | some s => s ≠ ""
  | none => false

/-- `a || b` on two optional string fields, as used in
`data.id || data.actionID`. -/
def jsOrStr (a b : Option String) : Option String :=
  if truthyStr a then a else b

/-- JS `s.endsWith(suffix)`, via a character-list suffix test (equivalent
to `String.endsWith`, but stated so proofs can evaluate it by
reduction). -/
def jsEndsWith (s suffix : String) : Bool :=
  suffix.data.isSuffixOf s.data

/-- The maximal leading run of decimal digits, as a number; `none` when
there is no leading digit (JS `NaN`). -/
def leadingDigits (cs : List Char) : Option Nat :=
  let ds := cs.takeWhile (fun c => c.isDigit)
  if ds.isEmpty then none
  else some (ds.foldl (fun a c => a * 10 + (c.toNat - 48)) 0)

/-- JavaScript `parseInt(s)` restricted to radix 10: skip leading
whitespace, an optional sign, then the maximal digit prefix; `none`
models `NaN`. -/
def jsParseInt (s : String) : Option Int :=
  let cs := s.toList.dropWhile (fun c => c = ' ' ∨ c = '\t' ∨ c = '\n' ∨ c = '\r')
  match cs with
  | '-' :: rest => (leadingDigits rest).map (fun n => -(n : Int))
  | '+' :: rest => (leadingDigits rest).map (fun n => (n : Int))
  | rest => (leadingDigits rest).map (fun n => (n : Int))

/-! ## Port discovery (`src/util/get-voicemod-port.ts`) -/

/-- The fixed candidate port list `possibleVoiceModPorts`. -/
def possibleVoiceModPorts : List Nat :=
  [59129, 20000, 39273, 42152, 43782, 46667, 35679, 37170, 38501, 33952, 30546]

/-- The probing loop of the default export of `get-voicemod-port.ts`:
walk the candidate list in order; each probe opens a WebSocket whose
outcome is given by the environment predicate `reachable` (`onopen`
fires ↦ `true`, `onclose`/`onerror` before open ↦ `false`).  Returns the
trace of probed ports and the returned port (`none` models the thrown
`unable to find valid Voicemod port`). -/
def getVoicemodPortAux (reachable : Nat → Bool) : List Nat → List Nat × Option Nat
  | [] => ([], none)
  | p :: rest =>
    if reachable p then ([p], some p)
    else
      let r := getVoicemodPortAux reachable rest
      (p :: r.1, r.2)

/-- `getVoicemodPort(host)`: probe the fixed candidate list. -/
def getVoicemodPort (reachable : Nat → Bool) : List Nat × Option Nat :=
  getVoicemodPortAux reachable possibleVoiceModPorts

/-! ### General lemmas about the probing loop -/

theorem getVoicemodPortAux_result (reachable : Nat → Bool) :
    ∀ l : List Nat, (getVoicemodPortAux reachable l).2 = l.find? reachable := by
  intro l
  induction l with
  | nil => rfl
  | cons p rest ih =>
    by_cases h : reachable p = true
    · simp [getVoicemodPortAux, h, List.find?]
    · simp [getVoicemodPortAux, h, List.find?, ih]

theorem getVoicemodPortAux_trace (reachable : Nat → Bool) :
    ∀ l : List Nat, (getVoicemodPortAux reachable l).1 =
      l.takeWhile (fun p => !reachable p) ++ (l.find? reachable).toList := by
  intro l
  induction l with
  | nil => rfl
  | cons p rest ih =>
    by_cases h : reachable p = true
    · simp [getVoicemodPortAux, h, List.takeWhile, List.find?]
    · simp [getVoicemodPortAux, h, List.takeWhile, List.find?, ih]

/-! ## Correlator plumbing (`internalEvent`, `internalEvents.emit`) -/

/-- `internalEvent(id)`: register a `once` listener for `id` on the
private emitter and hand out a promise whose only callback is `resolve`
(the promise cannot be rejected by anything in the code). -/
def internalEvent (s : SessionState) (id : String) : SessionState :=
  { s with
    listeners := s.listeners ++ [id]
    promiseLog := s.promiseLog ++ [(id, PromiseStatus.pending)] }

/-- `this.internalEvents.emit(id, v)`: every `once` listener registered
for `id` fires (resolving its promise) and removes itself; with no
listener for `id` the emit is a no-op. -/
def internalEmit (s : SessionState) (id : String) (v : MessageEvent) : SessionState :=
  if id ∈ s.listeners then
    { s with
      listeners := s.listeners.filter (fun i => i ≠ id)
      promiseLog := s.promiseLog.map (fun e =>
        if e.1 = id ∧ e.2 = PromiseStatus.pending then (e.1, PromiseStatus.resolved v) else e) }
  else s

/-! ## Sending (`wsSendMessage`) -/

/-- An outbound request frame `{action, id, payload}`; the payload is
kept as the serialized object. -/
structure SentFrame where
  action : String
  id : String
  payload : String
  deriving Repr, DecidableEq

/-- `wsSendMessage(action, payload)`: throws `Not connected` when there
is no transport handle, or when the session is not marked connected and
the action is not the bootstrap `registerClient`; otherwise serializes
and sends the envelope and returns the generated correlation id.  The
randomly generated id is passed in as `id`. -/
def wsSendMessage (s : SessionState) (action : String) (payload : String)
    (id : String) : Except String (SentFrame × String) :=
  if s.ws = none ∨ (s.connected = false ∧ action ≠ "registerClient") then
    Except.error "Not connected"
  else
    Except.ok ({ action := action, id := id, payload := payload }, id)

/-- Whether `wsSendMessage` would succeed for `action` in state `s`
(the guard of `wsSendMessage`, in positive form). -/
def canSend (s : SessionState) (action : String) : Bool :=
  s.ws.isSome && (s.connected || action == "registerClient")

/-! ## Lifecycle (`disconnect`, `connect`, `onDisconnect`, `onClose`) -/

/-- `disconnect()`: guarded by `connected !== false && ws !== null`.
Inside the guard it sets `forceDisconnect`, calls `ws.close()`, removes
all listeners of the private emitter, and emits `ConnectionClosed`.
Returns the new state, the emitted events, and whether `ws.close()` was
called.  Note: the promise statuses in `promiseLog` are untouched — the
code has no rejection path. -/
def disconnect (s : SessionState) : SessionState × List Emitted × Bool :=
  if s.connected = true ∧ s.ws.isSome then
    ({ s with forceDisconnect := true, listeners := [] },
     [Emitted.ConnectionClosed], true)
  else (s, [], false)

/-- `onDisconnect()`: emit `Disconnected`, drop the transport handle,
clear `connected`; when reconnect is enabled and `forceDisconnect` is not
set, emit `ConnectionRetry` and immediately re-invoke `connect()` — the
re-invocation is reported as the boolean "reconnect initiated" rather
than inlined, to keep the embedding structural. -/
def onDisconnect (opts : Options) (s : SessionState) :
    SessionState × List Emitted × Bool :=
  let s' := { s with ws := none, connected := false }
  if opts.reconnect = true ∧ s.forceDisconnect ≠ true then
    (s', [Emitted.Disconnected, Emitted.ConnectionRetry], true)
  else (s', [Emitted.Disconnected], false)

/-- `onClose(event)`: clear `connected`, run `onDisconnect()`, then emit
`ConnectionClosed`. -/
def onClose (opts : Options) (s : SessionState) :
    SessionState × List Emitted × Bool :=
  let r := onDisconnect opts { s with connected := false }
  (r.1, r.2.1 ++ [Emitted.ConnectionClosed], r.2.2)

/-- Outcome of one `connect()` invocation. -/
inductive ConnectOutcome where
  /-- `connected === true`: immediate return, nothing happens. -/
  | alreadyConnected
  /-- discovery succeeded: a transport to `port` was created and its
  handlers installed. -/
  | opened (port : Nat)
  /-- discovery failed, retry path: a re-invocation of `connect()`
  (preceded by a `ConnectionRetry` emit) was scheduled after `delay`
  milliseconds. -/
  | retryScheduled (delay : Nat)
  /-- discovery failed, budget exhausted: `ConnectionError` emitted and
  an error thrown; no retry scheduled. -/
  | terminalError
  /-- discovery failed with reconnect disabled or `forceDisconnect` set:
  `ConnectionError` emitted, no retry scheduled. -/
  | errorNoRetry
  deriving Repr, DecidableEq

/-- `connect()`: return immediately when already connected; otherwise run
port discovery (outcome determined by `reachable`) and either install a
new transport or take the catch branch: if reconnect is enabled and
`forceDisconnect` is not set, either give up with `ConnectionError` when
`maxRetries` is non-zero and `currentRetry` has reached it, or increment
`currentRetry` and schedule a delayed retry after `options.timeout`;
with reconnect disabled or `forceDisconnect` set, emit `ConnectionError`.
Note that nothing in any branch clears `forceDisconnect`. -/
def connect (opts : Options) (s : SessionState) (reachable : Nat → Bool) :
    SessionState × List Emitted × ConnectOutcome :=
  if s.connected = true then (s, [], ConnectOutcome.alreadyConnected)
  else
    match (getVoicemodPort reachable).2 with
    | some port =>
      ({ s with ws := some () }, [], ConnectOutcome.opened port)
    | none =>
      if opts.reconnect = true ∧ s.forceDisconnect ≠ true then
        if opts.maxRetries ≠ 0 ∧ s.currentRetry ≥ opts.maxRetries then
          (s, [Emitted.ConnectionError], ConnectOutcome.terminalError)
        else
          ({ s with currentRetry := s.currentRetry + 1 }, [],
           ConnectOutcome.retryScheduled opts.timeout)
      else (s, [Emitted.ConnectionError], ConnectOutcome.errorNoRetry)

/-! ## Registration (`registerClient`) -/

/-- `registerClient(clientKey)`, from the point where the awaited
authentication reply has been delivered by the correlator.  With a
payload present, `parseInt(reply.payload.status.code) === 200` marks the
session connected and emits `ClientRegistered` with the full reply;
otherwise `onDisconnect()` runs and `ClientRegistrationFailed` is
emitted; both branches then reset `currentRetry` to `0`.  A reply with no
payload makes the member access throw, landing in the catch branch:
`onDisconnect()`, `ClientRegistrationFailed`, and a re-thrown error
(`currentRetry` is not reset there). -/
def registerClient (opts : Options) (s : SessionState) (reply : MessageEvent) :
    SessionState × List Emitted × Bool :=
  match reply.payload with
  | some p =>
    if jsParseInt p.status.code = some 200 then
      ({ s with connected := true, currentRetry := 0 },
       [Emitted.ClientRegistered reply], false)
    else
      let r := onDisconnect opts s
      ({ r.1 with currentRetry := 0 },
       r.2.1 ++ [Emitted.ClientRegistrationFailed], false)
  | none =>
    let r := onDisconnect opts s
    (r.1, r.2.1 ++ [Emitted.ClientRegistrationFailed], true)

/-! ## Environment oracle

The remote application's reply to each request `action`, used to model
one `await`ed round trip of `wsGet` (the correlator's plumbing —
generated id, `once` listener, resolution — nets out to delivering the
reply, which the oracle does directly). -/

structure Oracle where
  user : String := ""
  userLicense : String := ""
  voices : List Voice := []
  currentVoiceID : String := ""
  soundboards : List Soundboard := []
  activeSoundboardId : String := ""
  memes : List Meme := []
  hearMyself : Bool := false
  voiceChanger : Bool := false
  backgroundEffects : Bool := false
  muteMic : Bool := false
  muteMemeForMe : Bool := false
  deriving Repr, DecidableEq

/-! ## Cached accessors (`wsGet` instances)

Each accessor returns `Except` (a thrown/rejected error) of the tuple
(actions sent on the wire, in order; result; new state; public events
emitted).  A failed `wsSendMessage` inside `wsGet` is caught by `wsGet`
and rethrown as `Could not get <action>`. -/

/-- `getVoices()`: `wsGet` with walk `voices`, storeAs `voiceList`, emit
`VoiceListChanged`.  There is no cache guard: every call sends a
request. -/
def getVoices (o : Oracle) (s : SessionState) :
    Except String (List String × List Voice × SessionState × List Emitted) :=
  if canSend s "getVoices" then
    Except.ok (["getVoices"], o.voices,
      { s with voicemodState.voiceList := some o.voices },
      [Emitted.VoiceListChanged o.voices])
  else Except.error "Could not get getVoices"

/-- `getVoiceFromId(id)`: always calls `getVoices()` (comment in source:
"We always need to have a current voice list"), re-stores the list, and
returns `list.filter(v => v.id === id)[0]` — `none` models the
`undefined` of an empty filter.  `id` is `Option` because the caller in
the router passes `actionObject.voiceID`, which may be absent. -/
def getVoiceFromId (o : Oracle) (s : SessionState) (id : Option String) :
    Except String (List String × Option Voice × SessionState × List Emitted) :=
  match getVoices o s with
  | Except.error e => Except.error e
  | Except.ok (tr, voices, s1, ev) =>
    Except.ok (tr, (voices.filter (fun v => some v.id = id)).head?,
      { s1 with voicemodState.voiceList := some voices }, ev)

/-- `getCurrentVoice()`: with a cached current-voice id, return
`getVoiceFromId` of it (which itself fetches the voice list); otherwise
`wsGet getCurrentVoice` (walk `voiceID`, storeAs `currentVoice`), then
look the record up and emit `VoiceChanged`. -/
def getCurrentVoice (o : Oracle) (s : SessionState) :
    Except String (List String × Option Voice × SessionState × List Emitted) :=
  match s.voicemodState.currentVoice with
  | some cv => getVoiceFromId o s (some cv)
  | none =>
    if canSend s "getCurrentVoice" then
      let s1 := { s with voicemodState.currentVoice := some o.currentVoiceID }
      match getVoiceFromId o s1 (some o.currentVoiceID) with
      | Except.error e => Except.error e
      | Except.ok (tr, voice, s2, ev) =>
        Except.ok ("getCurrentVoice" :: tr, voice, s2,
          ev ++ [Emitted.VoiceChanged voice])
    else Except.error "Could not get getCurrentVoice"

/-- `getUser()`: cached `user` short-circuits; otherwise `wsGet getUser`
(walk `userId`, storeAs `user`, emit `UserChanged`). -/
def getUser (o : Oracle) (s : SessionState) :
    Except String (List String × String × SessionState × List Emitted) :=
  match s.voicemodState.user with
  | some u => Except.ok ([], u, s, [])
  | none =>
    if canSend s "getUser" then
      Except.ok (["getUser"], o.user,
        { s with voicemodState.user := some o.user },
        [Emitted.UserChanged o.user])
    else Except.error "Could not get getUser"

/-- `getUserLicense()`: cached `userLicense` short-circuits; otherwise
`wsGet getUserLicense` (walk `licenseType`, storeAs `userLicense`, emit
`UserLicenseChanged`). -/
def getUserLicense (o : Oracle) (s : SessionState) :
    Except String (List String × String × SessionState × List Emitted) :=
  match s.voicemodState.userLicense with
  | some l => Except.ok ([], l, s, [])
  | none =>
    if canSend s "getUserLicense" then
      Except.ok (["getUserLicense"], o.userLicense,
        { s with voicemodState.userLicense := some o.userLicense },
        [Emitted.UserLicenseChanged o.userLicense])
    else Except.error "Could not get getUserLicense"

/-- `getAllSoundboard()`: cached `soundboards` short-circuits; otherwise
`wsGet getAllSoundboard` (walk `soundboards`, storeAs `soundboards`,
emit `SoundboardListChanged`).  The `try/catch` around the un-awaited
returned promise in the source can never catch, so it is not modelled. -/
def getAllSoundboard (o : Oracle) (s : SessionState) :
    Except String (List String × List Soundboard × SessionState × List Emitted) :=
  match s.voicemodState.soundboards with
  | some sbs => Except.ok ([], sbs, s, [])
  | none =>
    if canSend s "getAllSoundboard" then
      Except.ok (["getAllSoundboard"], o.soundboards,
        { s with voicemodState.soundboards := some o.soundboards },
        [Emitted.SoundboardListChanged (some o.soundboards)])
    else Except.error "Could not get getAllSoundboard"

/-- `getSoundboardFromId(id)`: `getAllSoundboard()` (cache-guarded),
re-store, filter by id, `[0]`. -/
def getSoundboardFromId (o : Oracle) (s : SessionState) (id : Option String) :
    Except String (List String × Option Soundboard × SessionState × List Emitted) :=
  match getAllSoundboard o s with
  | Except.error e => Except.error e
  | Except.ok (tr, sbs, s1, ev) =>
    Except.ok (tr, (sbs.filter (fun b => some b.id = id)).head?,
      { s1 with voicemodState.soundboards := some sbs }, ev)

/-- `getActiveSoundboardProfile()`: cached `activeSoundboard` id resolves
through `getSoundboardFromId`; otherwise prefetch `getAllSoundboard()`,
`wsGet getActiveSoundboardProfile` (walk `profileId`), resolve the
returned id, cache it on success, throw
`Could not find active soundboard` when the id is not in the list. -/
def getActiveSoundboardProfile (o : Oracle) (s : SessionState) :
    Except String (List String × Option Soundboard × SessionState × List Emitted) :=
  match s.voicemodState.activeSoundboard with
  | some aid => getSoundboardFromId o s (some aid)
  | none =>
    match getAllSoundboard o s with
    | Except.error e => Except.error e
    | Except.ok (tr1, _, s1, ev1) =>
      if canSend s1 "getActiveSoundboardProfile" then
        match getSoundboardFromId o s1 (some o.activeSoundboardId) with
        | Except.error e => Except.error e
        | Except.ok (tr2, found, s2, ev2) =>
          match found with
          | some b =>
            Except.ok (tr1 ++ ["getActiveSoundboardProfile"] ++ tr2, some b,
              { s2 with voicemodState.activeSoundboard := some b.id },
              ev1 ++ ev2)
          | none => Except.error "Could not find active soundboard"
      else Except.error "Could not get getActiveSoundboardProfile"

/-- `getMemes()`: cached `memes` short-circuits; otherwise
`wsGet getMemes` (walk `memes`, storeAs `memes`, emit `MemeListChanged`). -/
def getMemes (o : Oracle) (s : SessionState) :
    Except String (List String × List Meme × SessionState × List Emitted) :=
  match s.voicemodState.memes with
  | some ms => Except.ok ([], ms, s, [])
  | none =>
    if canSend s "getMemes" then
      Except.ok (["getMemes"], o.memes,
        { s with voicemodState.memes := some o.memes },
        [Emitted.MemeListChanged o.memes])
    else Except.error "Could not get getMemes"

/-- `getHearMyselfStatus()`: cached boolean short-circuits; otherwise
`wsGet getHearMyselfStatus` (walk `value`, storeAs, emit). -/
def getHearMyselfStatus (o : Oracle) (s : SessionState) :
    Except String (List String × Bool × SessionState × List Emitted) :=
  match s.voicemodState.hearMyselfStatus with
  | some b => Except.ok ([], b, s, [])
  | none =>
    if canSend s "getHearMyselfStatus" then
      Except.ok (["getHearMyselfStatus"], o.hearMyself,
        { s with voicemodState.hearMyselfStatus := some o.hearMyself },
        [Emitted.HearMyselfStatusChanged o.hearMyself])
    else Except.error "Could not get getHearMyselfStatus"

/-- `getVoiceChangerStatus()`: cached boolean short-circuits; otherwise
`wsGet getVoiceChangerStatus` (walk `value`, storeAs, emit). -/
def getVoiceChangerStatus (o : Oracle) (s : SessionState) :
    Except String (List String × Bool × SessionState × List Emitted) :=
  match s.voicemodState.voiceChangerStatus with
  | some b => Except.ok ([], b, s, [])
  | none =>
    if canSend s "getVoiceChangerStatus" then
      Except.ok (["getVoiceChangerStatus"], o.voiceChanger,
        { s with voicemodState.voiceChangerStatus := some o.voiceChanger },
        [Emitted.VoiceChangerStatusChanged o.voiceChanger])
    else Except.error "Could not get getVoiceChangerStatus"

/-- `getBackgroundEffectsStatus()`: cached boolean short-circuits;
otherwise `wsGet getBackgroundEffectStatus` (walk `value`, storeAs,
emit). -/
def getBackgroundEffectsStatus (o : Oracle) (s : SessionState) :
    Except String (List String × Bool × SessionState × List Emitted) :=
  match s.voicemodState.backgroundEffectsStatus with
  | some b => Except.ok ([], b, s, [])
  | none =>
    if canSend s "getBackgroundEffectStatus" then
      Except.ok (["getBackgroundEffectStatus"], o.backgroundEffects,
        { s with voicemodState.backgroundEffectsStatus := some o.backgroundEffects },
        [Emitted.BackgroundEffectStatusChanged o.backgroundEffects])
    else Except.error "Could not get getBackgroundEffectStatus"

/-- `getMuteMicStatus()`: cached boolean short-circuits; otherwise
`wsGet getMuteMicStatus` (walk `value`, storeAs, emit). -/
def getMuteMicStatus (o : Oracle) (s : SessionState) :
    Except String (List String × Bool × SessionState × List Emitted) :=
  match s.voicemodState.muteMicStatus with
  | some b => Except.ok ([], b, s, [])
  | none =>
    if canSend s "getMuteMicStatus" then
      Except.ok (["getMuteMicStatus"], o.muteMic,
        { s with voicemodState.muteMicStatus := some o.muteMic },
        [Emitted.MuteMicStatusChanged o.muteMic])
    else Except.error "Could not get getMuteMicStatus"

/-- `getMuteMemeForMeStatus()`: cached boolean short-circuits; otherwise
`wsGet getMuteMemeForMeStatus` (walk `value`, storeAs, emit). -/
def getMuteMemeForMeStatus (o : Oracle) (s : SessionState) :
    Except String (List String × Bool × SessionState × List Emitted) :=
  match s.voicemodState.muteMemeForMeStatus with
  | some b => Except.ok ([], b, s, [])
  | none =>
    if canSend s "getMuteMemeForMeStatus" then
      Except.ok (["getMuteMemeForMeStatus"], o.muteMemeForMe,
        { s with voicemodState.muteMemeForMeStatus := some o.muteMemeForMe },
        [Emitted.MuteMemeForMeStatusChanged o.muteMemeForMe])
    else Except.error "Could not get getMuteMemeForMeStatus"

/-! ## Message router (`onMessage`, `onVoiceChange`, `action-map`) -/

/-- The static `actionType → public event name` table
(`src/util/action-map.ts`). -/
def actionMap : List (String × String) :=
  [("ConnectionOpened", "ConnectionOpened"),
   ("ConnectionClosed", "ConnectionClosed"),
   ("ConnectionError", "ConnectionError"),
   ("ClientRegistered", "ClientRegistered"),
   ("ClientRegistrationFailed", "ClientRegistrationFailed"),
   ("ClientRegistrationPending", "ClientRegistrationPending"),
   ("UserChanged", "UserChanged"),
   ("UserLicenseChanged", "UserLicenseChanged"),
   ("VoiceChanged", "VoiceChanged"),
   ("VoiceListChanged", "VoiceListChanged"),
   ("VoiceChangerStatusChanged", "VoiceChangerStatusChanged"),
   ("VoiceParameterChanged", "VoiceParameterChanged"),
   ("HearMyselfStatusChanged", "HearMyselfStatusChanged"),
   ("BackgroundEffectStatusChanged", "BackgroundEffectStatusChanged"),
   ("MuteMicStatusChanged", "MuteMicStatusChanged"),
   ("BadLanguageStatusChanged", "BadLanguageStatusChanged"),
   ("SoundboardListChanged", "SoundboardListChanged"),
   ("MemeListChanged", "MemeListChanged")]

/-- `actionMap[data.actionType]`: `none` models `undefined` (missing key
or missing `actionType`). -/
def actionMapLookup (k : Option String) : Option String :=
  match k with
  | some key => (actionMap.find? (fun e => e.1 = key)).map (fun e => e.2)
  | none => none

/-- `onVoiceChange(id)`: store the new current-voice id, then emit
`VoiceChanged` with `await getVoiceFromId(id)` — a fresh network fetch of
the voice list.  Returns (state, actions sent, events emitted).  When the
inner fetch rejects, the rejection is unobserved by the caller (the
router does not `await` this method): the id is already stored, nothing
is sent or emitted. -/
def onVoiceChange (o : Oracle) (s : SessionState) (vid : Option String) :
    SessionState × List String × List Emitted :=
  let s1 := { s with voicemodState.currentVoice := vid }
  match getVoiceFromId o s1 vid with
  | Except.ok (tr, voice, s2, ev) => (s2, tr, ev ++ [Emitted.VoiceChanged voice])
  | Except.error _ => (s1, [], [])

/-- The observable outcome of one `onMessage` invocation: public events
emitted in order, the state afterwards, the actions sent on the wire,
and the error thrown out of the handler (if any). -/
structure RouterOutcome where
  emits : List Emitted
  state : SessionState
  sent : List String
  thrown : Option String
  deriving Repr, DecidableEq

/-- `onMessage(event)`: `JSON.parse` first (a parse failure throws out of
the handler before anything is emitted), then `emit('AllEvents', data)`,
then classify in priority order:
1. truthy `msg` equal (lowercased) to `pending authentication`;
2. `action === 'registerClient'` → resolve via the private emitter;
3. truthy `id` or `actionID` → emit the `actionMap` event with
   `actionObject` and resolve `id || actionID`;
4. truthy `action` ending in `Event` → the static app-event table
   (`badLanguage...` emits without touching the cache; `voiceLoadedEvent`
   hands off to `onVoiceChange`; an unknown name throws `Unknown event`);
5. other truthy `action` → only `getAllSoundboard` is recognized (store
   `actionObject.soundboards`, emit `SoundboardListChanged`), anything
   else falls through silently;
6. otherwise throw `Unknown message`. -/
def onMessage (o : Oracle) (s : SessionState) (raw : Except String MessageEvent) :
    RouterOutcome :=
  match raw with
  | Except.error e => { emits := [], state := s, sent := [], thrown := some e }
  | Except.ok data =>
    let base := [Emitted.AllEvents data]
    if truthyStr data.msg ∧ (data.msg.getD "").toLower = "pending authentication" then
      { emits := base ++ [Emitted.ClientRegistrationPending], state := s,
        sent := [], thrown := none }
    else if data.action = some "registerClient" then
      { emits := base,
        state := match data.id with
                 | some i => internalEmit s i data
                 | none => s,
        sent := [], thrown := none }
    else if truthyStr data.id ∨ truthyStr data.actionID then
      { emits := base ++ [Emitted.Correlated (actionMapLookup data.actionType) data.actionObject],
        state := match jsOrStr data.id data.actionID with
                 | some i => internalEmit s i data
                 | none => s,
        sent := [], thrown := none }
    else if truthyStr data.action ∧ jsEndsWith (data.action.getD "") "Event" then
      match data.action.getD "" with
      | "voiceChangerEnabledEvent" =>
        { emits := base ++ [Emitted.VoiceChangerStatusChanged true],
          state := { s with voicemodState.voiceChangerStatus := some true },
          sent := [], thrown := none }
      | "voiceChangerDisabledEvent" =>
        { emits := base ++ [Emitted.VoiceChangerStatusChanged false],
          state := { s with voicemodState.voiceChangerStatus := some false },
          sent := [], thrown := none }
      | "backgroundEffectsEnabledEvent" =>
        { emits := base ++ [Emitted.BackgroundEffectStatusChanged true],
          state := { s with voicemodState.backgroundEffectsStatus := some true },
          sent := [], thrown := none }
      | "backgroundEffectsDisabledEvent" =>
        { emits := base ++ [Emitted.BackgroundEffectStatusChanged false],
          state := { s with voicemodState.backgroundEffectsStatus := some false },
          sent := [], thrown := none }
      | "hearMySelfEnabledEvent" =>
        { emits := base ++ [Emitted.HearMyselfStatusChanged true],
          state := { s with voicemodState.hearMyselfStatus := some true },
          sent := [], thrown := none }
      | "hearMySelfDisabledEvent" =>
        { emits := base ++ [Emitted.HearMyselfStatusChanged false],
          state := { s with voicemodState.hearMyselfStatus := some false },
          sent := [], thrown := none }
      | "muteMicEnabledEvent" =>
        { emits := base ++ [Emitted.MuteMicStatusChanged true],
          state := { s with voicemodState.muteMicStatus := some true },
          sent := [], thrown := none }
      | "muteMicDisabledEvent" =>
        { emits := base ++ [Emitted.MuteMicStatusChanged false],
          state := { s with voicemodState.muteMicStatus := some false },
          sent := [], thrown := none }
      | "muteMemeForMeEnabledEvent" =>
        { emits := base ++ [Emitted.MuteMemeForMeStatusChanged true],
          state := { s with voicemodState.muteMemeForMeStatus := some true },
          sent := [], thrown := none }
      | "muteMemeForMeDisabledEvent" =>
        { emits := base ++ [Emitted.MuteMemeForMeStatusChanged false],
          state := { s with voicemodState.muteMemeForMeStatus := some false },
          sent := [], thrown := none }
      | "voiceLoadedEvent" =>
        let r := onVoiceChange o s data.actionObject.voiceID
        { emits := base ++ r.2.2, state := r.1, sent := r.2.1, thrown := none }
      | "badLanguageEnabledEvent" =>
        { emits := base ++ [Emitted.BadLanguageStatusChanged true], state := s,
          sent := [], thrown := none }
      | "badLanguageDisabledEvent" =>
        { emits := base ++ [Emitted.BadLanguageStatusChanged false], state := s,
          sent := [], thrown := none }
      | a =>
        { emits := base, state := s, sent := [],
          thrown := some ("Unknown event: " ++ a) }
    else if truthyStr data.action then
      if data.action = some "getAllSoundboard" then
        { emits := base ++ [Emitted.SoundboardListChanged data.actionObject.soundboards],
          state := { s with voicemodState.soundboards := data.actionObject.soundboards },
          sent := [], thrown := none }
      else
        { emits := base, state := s, sent := [], thrown := none }
    else
      { emits := base, state := s, sent := [], thrown := some "Unknown message" }

/-! ## Theorems -/

/-- C6: for every host environment (pattern of port reachability), port
discovery probes the fixed candidate list strictly in list order, returns
the first candidate whose handshake opens, probes each earlier candidate
exactly once, fails with the no-reachable-port error (`none`) when no
candidate succeeds, and — when only the 3rd candidate is reachable —
exactly 2 failed probes precede the success. -/
theorem C6_port_discovery (reachable : Nat → Bool) :
    (getVoicemodPort reachable).2 = possibleVoiceModPorts.find? reachable
    ∧ (getVoicemodPort reachable).1 =
        possibleVoiceModPorts.takeWhile (fun p => !reachable p) ++
          (possibleVoiceModPorts.find? reachable).toList
    ∧ (getVoicemodPort (fun _ => false)).2 = none
    ∧ getVoicemodPort (fun p => p == 39273) = ([59129, 20000, 39273], some 39273) := by
  refine ⟨getVoicemodPortAux_result reachable _, getVoicemodPortAux_trace reachable _, ?_, ?_⟩
  · rfl
  · rfl

/-- C7: `wsSendMessage` throws `Not connected` exactly when there is no
transport handle, or the session is not marked connected and the action
is not the bootstrap `registerClient`; in every other case the envelope
`{action, id, payload}` is transmitted and the generated id returned. -/
theorem C7_send_guard (s : SessionState) (action payload id : String) :
    (wsSendMessage s action payload id = Except.error "Not connected" ↔
      s.ws = none ∨ (s.connected = false ∧ action ≠ "registerClient"))
    ∧ (¬(s.ws = none ∨ (s.connected = false ∧ action ≠ "registerClient")) →
        wsSendMessage s action payload id =
          Except.ok ({ action := action, id := id, payload := payload }, id)) := by
  constructor
  · unfold wsSendMessage
    by_cases h : s.ws = none ∨ (s.connected = false ∧ action ≠ "registerClient")
    · simp [h]
    · simp [h]
  · intro h
    unfold wsSendMessage
    simp [h]

/-- C7 witness: a ready session transmits a `loadVoice` envelope. -/
theorem C7_send_guard_witness :
    wsSendMessage { ws := some (), connected := true } "loadVoice" "pl" "k7xq" =
      Except.ok ({ action := "loadVoice", id := "k7xq", payload := "pl" }, "k7xq") :=
  (C7_send_guard { ws := some (), connected := true } "loadVoice" "pl" "k7xq").2
    (by simp)

/-- C10: when the session is not marked connected or no transport handle
exists, `disconnect()` is a complete no-op — state unchanged, nothing
closed, no event emitted — and in particular it does not suppress the
auto-reconnect behavior of a later transport loss. -/
theorem C10_disconnect_noop (s : SessionState)
    (h : s.connected = false ∨ s.ws = none) :
    disconnect s = (s, [], false)
    ∧ ∀ opts : Options, opts.reconnect = true → s.forceDisconnect = false →
        (onDisconnect opts (disconnect s).1).2.2 = true := by
  have hval : disconnect s = (s, [], false) := by
    unfold disconnect
    rcases h with h | h
    · simp [h]
    · simp [h]
  refine ⟨hval, ?_⟩
  intro opts hr hf
  rw [hval]
  unfold onDisconnect
  simp [hr, hf]

/-- C10 witness: disconnecting mid-connection-attempt (transport created,
registration not yet complete) changes nothing and leaves auto-reconnect
armed. -/
theorem C10_disconnect_noop_witness :
    disconnect { ws := some (), connected := false } =
      ({ ws := some (), connected := false }, [], false)
    ∧ (onDisconnect { host := "h", clientKey := "k", reconnect := true }
        (disconnect { ws := some (), connected := false }).1).2.2 = true := by
  have h := C10_disconnect_noop { ws := some (), connected := false } (Or.inl rfl)
  exact ⟨h.1, h.2 { host := "h", clientKey := "k", reconnect := true } rfl rfl⟩

/-- C5: on discovery failure with reconnect enabled and
`forceDisconnect` clear: with retry budget remaining, `connect()`
schedules a retry after the configured `timeout` and increments
`currentRetry`; with a finite (non-zero) `maxRetries` already reached by
the counter, it emits a terminal `ConnectionError` and stops;
`maxRetries = 0` always retries (unlimited). -/
theorem C5_retry_policy (opts : Options) (s : SessionState) (reachable : Nat → Bool)
    (hc : s.connected = false) (hr : opts.reconnect = true)
    (hf : s.forceDisconnect = false)
    (hd : (getVoicemodPort reachable).2 = none) :
    (¬(opts.maxRetries ≠ 0 ∧ s.currentRetry ≥ opts.maxRetries) →
      connect opts s reachable =
        ({ s with currentRetry := s.currentRetry + 1 }, [],
         ConnectOutcome.retryScheduled opts.timeout))
    ∧ (opts.maxRetries ≠ 0 → s.currentRetry ≥ opts.maxRetries →
        connect opts s reachable =
          (s, [Emitted.ConnectionError], ConnectOutcome.terminalError))
    ∧ (opts.maxRetries = 0 →
        connect opts s reachable =
          ({ s with currentRetry := s.currentRetry + 1 }, [],
           ConnectOutcome.retryScheduled opts.timeout)) := by
  unfold connect
  rw [hd]
  refine ⟨?_, ?_, ?_⟩
  · intro h
    simp [hc, hr, hf, h]
  · intro h1 h2
    simp [hc, hr, hf, h1, h2]
  · intro h0
    simp [hc, hr, hf, h0]

/-- C5 witness: with `maxRetries = 5` and `currentRetry = 1`, a failed
discovery pass schedules a retry after the 500 ms timeout and bumps the
counter; with the counter at 5 it ends in the terminal error. -/
theorem C5_retry_policy_witness :
    connect { host := "h", clientKey := "k", reconnect := true, timeout := 500,
              maxRetries := 5 } {} (fun _ => false) =
      ({ currentRetry := 2 }, [], ConnectOutcome.retryScheduled 500)
    ∧ connect { host := "h", clientKey := "k", reconnect := true, timeout := 500,
                maxRetries := 5 } { currentRetry := 5 } (fun _ => false) =
      ({ currentRetry := 5 }, [Emitted.ConnectionError], ConnectOutcome.terminalError) := by
  constructor
  · exact (C5_retry_policy _ {} (fun _ => false) rfl rfl rfl rfl).1 (by decide)
  · exact (C5_retry_policy _ { currentRetry := 5 } (fun _ => false) rfl rfl rfl rfl).2.1
      (by decide) (by decide)

/-- C1 counterexample: a session with one outstanding pending request
(`K = 1`, correlation id `r1`).  `disconnect()` returns with the request
still `pending` — not rejected, not resolved — and the follow-up shows a
later delivery on `r1` can no longer settle it (the `once` listener is
gone), so the caller waits indefinitely, contrary to the claim that all
K pending requests are failed before `disconnect()` returns. -/
theorem C1_counterexample :
    disconnect { connected := true, ws := some (), listeners := ["r1"],
                 promiseLog := [("r1", PromiseStatus.pending)] } =
      ({ connected := true, ws := some (), forceDisconnect := true, listeners := [],
         promiseLog := [("r1", PromiseStatus.pending)] },
       [Emitted.ConnectionClosed], true)
    ∧ internalEmit
        { connected := true, ws := some (), forceDisconnect := true, listeners := [],
          promiseLog := [("r1", PromiseStatus.pending)] } "r1" {} =
      { connected := true, ws := some (), forceDisconnect := true, listeners := [],
        promiseLog := [("r1", PromiseStatus.pending)] } := by
  exact ⟨rfl, rfl⟩

/-- C1 (amended): `disconnect()` does not fail any outstanding pending
request: it leaves every promise status exactly as it was (in particular
none becomes rejected), removes every internal listener, and afterwards
no event delivery whatsoever can settle a promise — a caller awaiting a
request at the time of an explicit disconnect waits indefinitely. -/
theorem C1_disconnect_abandons_pending (s : SessionState)
    (hc : s.connected = true) (hw : s.ws.isSome = true) :
    (disconnect s).1.promiseLog = s.promiseLog
    ∧ (disconnect s).1.listeners = []
    ∧ ∀ (id : String) (v : MessageEvent),
        internalEmit (disconnect s).1 id v = (disconnect s).1 := by
  have hd : disconnect s =
      ({ s with forceDisconnect := true, listeners := [] },
       [Emitted.ConnectionClosed], true) := by
    unfold disconnect
    simp [hc, hw]
  refine ⟨by rw [hd], by rw [hd], ?_⟩
  intro id v
  rw [hd]
  unfold internalEmit
  simp

/-- C1 witness: the amended theorem applied to a session with one
outstanding pending request. -/
theorem C1_disconnect_abandons_pending_witness :
    (disconnect { connected := true, ws := some (), listeners := ["q"],
                  promiseLog := [("q", PromiseStatus.pending)] }).1.promiseLog =
      [("q", PromiseStatus.pending)]
    ∧ internalEmit
        (disconnect { connected := true, ws := some (), listeners := ["q"],
                      promiseLog := [("q", PromiseStatus.pending)] }).1 "q" {} =
      (disconnect { connected := true, ws := some (), listeners := ["q"],
                    promiseLog := [("q", PromiseStatus.pending)] }).1 := by
  have h := C1_disconnect_abandons_pending
    { connected := true, ws := some (), listeners := ["q"],
      promiseLog := [("q", PromiseStatus.pending)] } rfl rfl
  exact ⟨h.1, h.2.2 "q" {}⟩

/-- C3 counterexample: explicitly disconnect a ready session, let the
transport close settle, then call `connect()` again with the first
candidate port reachable.  The new attempt opens a transport, but
`forceDisconnect` is still `true` afterwards — `connect()` never clears
it, contrary to the claim. -/
theorem C3_counterexample :
    (connect { host := "h", clientKey := "k", reconnect := true }
        (onClose { host := "h", clientKey := "k", reconnect := true }
          (disconnect { connected := true, ws := some () }).1).1
        (fun p => p == 59129)).1.forceDisconnect = true
    ∧ (connect { host := "h", clientKey := "k", reconnect := true }
        (onClose { host := "h", clientKey := "k", reconnect := true }
          (disconnect { connected := true, ws := some () }).1).1
        (fun p => p == 59129)).2.2 = ConnectOutcome.opened 59129 := by
  exact ⟨rfl, rfl⟩

/-- C3 (amended): `disconnect()` on a ready session sets
`forceDisconnect`, closes the transport, emits `ConnectionClosed`, and
suppresses auto-reconnect; a subsequent `connect()` does restart the
discovery/connect sequence (opening a new transport when discovery
succeeds) but does **not** clear `forceDisconnect`, so auto-reconnect
stays suppressed for the new session. -/
theorem C3_forceDisconnect_not_cleared (opts : Options) (s : SessionState)
    (reachable : Nat → Bool) (hc : s.connected = true) (hw : s.ws.isSome = true) :
    (disconnect s).1.forceDisconnect = true
    ∧ (disconnect s).2.2 = true
    ∧ (disconnect s).2.1 = [Emitted.ConnectionClosed]
    ∧ (onDisconnect opts (disconnect s).1).2.2 = false
    ∧ (connect opts (onClose opts (disconnect s).1).1 reachable).1.forceDisconnect = true
    ∧ ∀ port, (getVoicemodPort reachable).2 = some port →
        (connect opts (onClose opts (disconnect s).1).1 reachable).2.2 =
          ConnectOutcome.opened port := by
  have hd : disconnect s =
      ({ s with forceDisconnect := true, listeners := [] },
       [Emitted.ConnectionClosed], true) := by
    unfold disconnect
    simp [hc, hw]
  refine ⟨by rw [hd], by rw [hd], by rw [hd], ?_, ?_, ?_⟩
  · rw [hd]
    unfold onDisconnect
    simp
  · rw [hd]
    unfold onClose onDisconnect connect
    cases h : (getVoicemodPort reachable).2 <;> simp [h]
  · intro port hp
    rw [hd]
    unfold onClose onDisconnect connect
    simp [hp]

/-- C3 witness: the amended theorem at a concrete ready session, with
the second candidate port reachable on the reconnect attempt. -/
theorem C3_forceDisconnect_not_cleared_witness :
    (disconnect { connected := true, ws := some () }).1.forceDisconnect = true
    ∧ (connect { host := "h", clientKey := "k", reconnect := true }
        (onClose { host := "h", clientKey := "k", reconnect := true }
          (disconnect { connected := true, ws := some () }).1).1
        (fun p => p == 20000)).2.2 = ConnectOutcome.opened 20000 := by
  have h := C3_forceDisconnect_not_cleared
    { host := "h", clientKey := "k", reconnect := true }
    { connected := true, ws := some () } (fun p => p == 20000) rfl rfl
  exact ⟨h.1, h.2.2.2.2.2 20000 rfl⟩

/-- C4 counterexample: an authentication reply whose status code is the
string `"0200"` — not `"200"` — still marks the session connected and
emits `ClientRegistered` (the code compares `parseInt(code) === 200`,
and `parseInt("0200") = 200`), contrary to the claim that every code
string other than `"200"` emits `ClientRegistrationFailed` and does not
mark the session ready. -/
theorem C4_counterexample :
    registerClient { host := "h", clientKey := "k" } { ws := some () }
        { payload := some { status := { code := "0200" } } } =
      ({ ws := some (), connected := true, currentRetry := 0 },
       [Emitted.ClientRegistered { payload := some { status := { code := "0200" } } }],
       false)
    ∧ "0200" ≠ "200" := by
  exact ⟨rfl, by decide⟩

/-- C4 (amended): a reply whose status code parses to 200 under
JavaScript `parseInt` (so `"200"`, but also `"0200"`, `" 200"`,
`"200x"`, …) marks the session connected and emits `ClientRegistered`
with the full reply; exactly the replies whose code does not parse to
200 (e.g. `"403"`) emit `ClientRegistrationFailed`, tear the transport
down, and leave the session not ready. -/
theorem C4_registration_by_parseInt (opts : Options) (s : SessionState)
    (reply : MessageEvent) (p : RegisterPayload) (hp : reply.payload = some p) :
    (jsParseInt p.status.code = some 200 →
      registerClient opts s reply =
        ({ s with connected := true, currentRetry := 0 },
         [Emitted.ClientRegistered reply], false))
    ∧ (jsParseInt p.status.code ≠ some 200 →
        (registerClient opts s reply).1.connected = false
        ∧ (registerClient opts s reply).1.ws = none
        ∧ (registerClient opts s reply).2.1 =
            (onDisconnect opts s).2.1 ++ [Emitted.ClientRegistrationFailed]
        ∧ Emitted.ClientRegistered reply ∉ (registerClient opts s reply).2.1) := by
  constructor
  · intro h
    unfold registerClient
    rw [hp]
    simp [h]
  · intro h
    unfold registerClient
    rw [hp]
    simp only [h, if_false, ite_false]
    unfold onDisconnect
    split <;> simp

/-- C4 witness: the amended theorem at a `"200"` reply (ready, registered)
and at a `"403"` reply (not ready). -/
theorem C4_registration_by_parseInt_witness :
    registerClient { host := "h", clientKey := "k" } { ws := some () }
        { payload := some { status := { code := "200" } } } =
      ({ ws := some (), connected := true, currentRetry := 0 },
       [Emitted.ClientRegistered { payload := some { status := { code := "200" } } }],
       false)
    ∧ (registerClient { host := "h", clientKey := "k" } { ws := some () }
        { payload := some { status := { code := "403" } } }).1.connected = false := by
  have h1 := (C4_registration_by_parseInt { host := "h", clientKey := "k" }
    { ws := some () } { payload := some { status := { code := "200" } } }
    { status := { code := "200" } } rfl).1 (by decide)
  have h2 := (C4_registration_by_parseInt { host := "h", clientKey := "k" }
    { ws := some () } { payload := some { status := { code := "403" } } }
    { status := { code := "403" } } rfl).2 (by decide)
  exact ⟨h1, h2.1⟩

/-- Helper: re-storing the already-cached soundboard list is the
identity on the session state. -/
theorem setSoundboards_self (s : SessionState) (sbs : List Soundboard)
    (h : s.voicemodState.soundboards = some sbs) :
    { s with voicemodState.soundboards := some sbs } = s := by
  cases s with
  | mk c w f r vs ls pl =>
    cases vs
    simp_all

/-- C2 counterexample: a session holding both a cached current-voice id
(`"v1"`) and a cached voice list for it.  The cache-hit call of
`getCurrentVoice` still sends one `getVoices` request on the wire (the
claim demands zero), and even returns the freshly fetched record rather
than the cached one. -/
theorem C2_counterexample :
    getCurrentVoice
        { voices := [{ id := "v1", friendlyName := "Fresh" }] }
        { connected := true, ws := some (),
          voicemodState := { voiceList := some [{ id := "v1", friendlyName := "Cached" }],
                             currentVoice := some "v1" } } =
      Except.ok (["getVoices"], some { id := "v1", friendlyName := "Fresh" },
        { connected := true, ws := some (),
          voicemodState := { voiceList := some [{ id := "v1", friendlyName := "Fresh" }],
                             currentVoice := some "v1" } },
        [Emitted.VoiceListChanged [{ id := "v1", friendlyName := "Fresh" }]]) := by
  rfl

/-- C2 (amended): every cacheable property with a cache guard — user,
license, memes, soundboard list, the five toggle statuses, and the
active soundboard (given the soundboard list is also cached) — returns
the cached value from its accessor with zero network requests and no
state change; but `getCurrentVoice` is the exception: its cache-hit path
goes through `getVoiceFromId`, which always fetches the voice list, so
it sends one `getVoices` request per call. -/
theorem C2_cached_accessors (o : Oracle) (s : SessionState) :
    (∀ u, s.voicemodState.user = some u →
      getUser o s = Except.ok ([], u, s, []))
    ∧ (∀ l, s.voicemodState.userLicense = some l →
        getUserLicense o s = Except.ok ([], l, s, []))
    ∧ (∀ ms, s.voicemodState.memes = some ms →
        getMemes o s = Except.ok ([], ms, s, []))
    ∧ (∀ sbs, s.voicemodState.soundboards = some sbs →
        getAllSoundboard o s = Except.ok ([], sbs, s, []))
    ∧ (∀ b, s.voicemodState.hearMyselfStatus = some b →
        getHearMyselfStatus o s = Except.ok ([], b, s, []))
    ∧ (∀ b, s.voicemodState.voiceChangerStatus = some b →
        getVoiceChangerStatus o s = Except.ok ([], b, s, []))
    ∧ (∀ b, s.voicemodState.backgroundEffectsStatus = some b →
        getBackgroundEffectsStatus o s = Except.ok ([], b, s, []))
    ∧ (∀ b, s.voicemodState.muteMicStatus = some b →
        getMuteMicStatus o s = Except.ok ([], b, s, []))
    ∧ (∀ b, s.voicemodState.muteMemeForMeStatus = some b →
        getMuteMemeForMeStatus o s = Except.ok ([], b, s, []))
    ∧ (∀ aid sbs, s.voicemodState.activeSoundboard = some aid →
        s.voicemodState.soundboards = some sbs →
        getActiveSoundboardProfile o s =
          Except.ok ([], (sbs.filter (fun b => some b.id = some aid)).head?, s, []))
    ∧ (∀ cv, s.voicemodState.currentVoice = some cv →
        canSend s "getVoices" = true →
        getCurrentVoice o s =
          Except.ok (["getVoices"],
            (o.voices.filter (fun v => some v.id = some cv)).head?,
            { s with voicemodState.voiceList := some o.voices },
            [Emitted.VoiceListChanged o.voices])) := by
  refine ⟨?_, ?_, ?_, ?_, ?_, ?_, ?_, ?_, ?_, ?_, ?_⟩
  · intro u h
    unfold getUser
    rw [h]
  · intro l h
    unfold getUserLicense
    rw [h]
  · intro ms h
    unfold getMemes
    rw [h]
  · intro sbs h
    unfold getAllSoundboard
    rw [h]
  · intro b h
    unfold getHearMyselfStatus
    rw [h]
  · intro b h
    unfold getVoiceChangerStatus
    rw [h]
  · intro b h
    unfold getBackgroundEffectsStatus
    rw [h]
  · intro b h
    unfold getMuteMicStatus
    rw [h]
  · intro b h
    unfold getMuteMemeForMeStatus
    rw [h]
  · intro aid sbs ha hs
    unfold getActiveSoundboardProfile getSoundboardFromId getAllSoundboard
    rw [ha, hs]
    simp [setSoundboards_self s sbs hs]
  · intro cv hc hsend
    unfold getCurrentVoice getVoiceFromId getVoices
    rw [hc]
    simp only [canSend, Bool.and_eq_true, Bool.or_eq_true] at hsend
    have hw : s.ws.isSome = true := hsend.1
    have hcon : s.connected = true := by
      rcases hsend.2 with h | h
      · exact h
      · simp at h
    simp [canSend, hw, hcon]

/-- C2 witness: the amended theorem at a concrete session — a cached
user id is returned with nothing sent, while a cache-hit
`getCurrentVoice` sends `getVoices`. -/
theorem C2_cached_accessors_witness :
    getUser {} { voicemodState := { user := some "u7" } } =
      Except.ok ([], "u7", { voicemodState := { user := some "u7" } }, [])
    ∧ getCurrentVoice {} { ws := some (), connected := true, voicemodState := { currentVoice := some "v9" } } =
      Except.ok (["getVoices"], none,
        { ws := some (), connected := true, voicemodState := { currentVoice := some "v9", voiceList := some [] } },
        [Emitted.VoiceListChanged []]) := by
  have h1 := (C2_cached_accessors {} { voicemodState := { user := some "u7" } }).1
    "u7" rfl
  have h2 := (C2_cached_accessors {}
    { ws := some (), connected := true, voicemodState := { currentVoice := some "v9" } }).2.2.2.2.2.2.2.2.2.2
    "v9" rfl rfl
  exact ⟨h1, h2⟩

/-- Helper: branch selection of the router for `voiceLoadedEvent`. -/
theorem onMessage_voiceLoaded (o : Oracle) (s : SessionState) (obj : ActionObject) :
    onMessage o s (Except.ok { action := some "voiceLoadedEvent", actionObject := obj }) =
      { emits := Emitted.AllEvents { action := some "voiceLoadedEvent", actionObject := obj } ::
          (onVoiceChange o s obj.voiceID).2.2,
        state := (onVoiceChange o s obj.voiceID).1,
        sent := (onVoiceChange o s obj.voiceID).2.1,
        thrown := none } := rfl

/-- C8 counterexample: a spontaneous `badLanguageEnabledEvent` delivered
to a session whose cache is entirely unset.  The router emits
`BadLanguageStatusChanged true` but returns the state unchanged — no
cache field is set to `true` — contrary to the claim that every
recognized enabled/disabled action name (including the bad-language
pair) sets its table-designated cache field. -/
theorem C8_counterexample :
    onMessage {} { connected := true, ws := some () }
        (Except.ok { action := some "badLanguageEnabledEvent" }) =
      { emits := [Emitted.AllEvents { action := some "badLanguageEnabledEvent" },
                  Emitted.BadLanguageStatusChanged true],
        state := { connected := true, ws := some () },
        sent := [], thrown := none }
    ∧ ({ connected := true, ws := some () } : SessionState).voicemodState =
        ({} : VoiceState) := by
  exact ⟨rfl, rfl⟩

/-- C8 (amended): for spontaneous app-state-change events, the ten
enabled/disabled names of the five cached toggles set their
table-designated cache field and emit the corresponding changed-event;
the bad-language pair only emits its changed-event and sets no cache
field; `voiceLoadedEvent` with `actionObject.voiceID = v` stores `v` as
the cached current-voice id and emits a `VoiceChanged` carrying the
record for `v` looked up in a **freshly fetched** voice list (one
`getVoices` request, whose result also overwrites the cached list) — not
in the previously cached list; an action name ending in `Event` that is
absent from the table makes the handler throw `Unknown event`. -/
theorem C8_event_table (o : Oracle) (s : SessionState) :
    (∀ obj : ActionObject,
      onMessage o s (Except.ok { action := some "voiceChangerEnabledEvent", actionObject := obj }) =
        { emits := [Emitted.AllEvents { action := some "voiceChangerEnabledEvent", actionObject := obj },
                    Emitted.VoiceChangerStatusChanged true],
          state := { s with voicemodState.voiceChangerStatus := some true },
          sent := [], thrown := none }
      ∧ onMessage o s (Except.ok { action := some "voiceChangerDisabledEvent", actionObject := obj }) =
        { emits := [Emitted.AllEvents { action := some "voiceChangerDisabledEvent", actionObject := obj },
                    Emitted.VoiceChangerStatusChanged false],
          state := { s with voicemodState.voiceChangerStatus := some false },
          sent := [], thrown := none }
      ∧ onMessage o s (Except.ok { action := some "backgroundEffectsEnabledEvent", actionObject := obj }) =
        { emits := [Emitted.AllEvents { action := some "backgroundEffectsEnabledEvent", actionObject := obj },
                    Emitted.BackgroundEffectStatusChanged true],
          state := { s with voicemodState.backgroundEffectsStatus := some true },
          sent := [], thrown := none }
      ∧ onMessage o s (Except.ok { action := some "backgroundEffectsDisabledEvent", actionObject := obj }) =
        { emits := [Emitted.AllEvents { action := some "backgroundEffectsDisabledEvent", actionObject := obj },
                    Emitted.BackgroundEffectStatusChanged false],
          state := { s with voicemodState.backgroundEffectsStatus := some false },
          sent := [], thrown := none }
      ∧ onMessage o s (Except.ok { action := some "hearMySelfEnabledEvent", actionObject := obj }) =
        { emits := [Emitted.AllEvents { action := some "hearMySelfEnabledEvent", actionObject := obj },
                    Emitted.HearMyselfStatusChanged true],
          state := { s with voicemodState.hearMyselfStatus := some true },
          sent := [], thrown := none }
      ∧ onMessage o s (Except.ok { action := some "hearMySelfDisabledEvent", actionObject := obj }) =
        { emits := [Emitted.AllEvents { action := some "hearMySelfDisabledEvent", actionObject := obj },
                    Emitted.HearMyselfStatusChanged false],
          state := { s with voicemodState.hearMyselfStatus := some false },
          sent := [], thrown := none }
      ∧ onMessage o s (Except.ok { action := some "muteMicEnabledEvent", actionObject := obj }) =
        { emits := [Emitted.AllEvents { action := some "muteMicEnabledEvent", actionObject := obj },
                    Emitted.MuteMicStatusChanged true],
          state := { s with voicemodState.muteMicStatus := some true },
          sent := [], thrown := none }
      ∧ onMessage o s (Except.ok { action := some "muteMicDisabledEvent", actionObject := obj }) =
        { emits := [Emitted.AllEvents { action := some "muteMicDisabledEvent", actionObject := obj },
                    Emitted.MuteMicStatusChanged false],
          state := { s with voicemodState.muteMicStatus := some false },
          sent := [], thrown := none }
      ∧ onMessage o s (Except.ok { action := some "muteMemeForMeEnabledEvent", actionObject := obj }) =
        { emits := [Emitted.AllEvents { action := some "muteMemeForMeEnabledEvent", actionObject := obj },
                    Emitted.MuteMemeForMeStatusChanged true],
          state := { s with voicemodState.muteMemeForMeStatus := some true },
          sent := [], thrown := none }
      ∧ onMessage o s (Except.ok { action := some "muteMemeForMeDisabledEvent", actionObject := obj }) =
        { emits := [Emitted.AllEvents { action := some "muteMemeForMeDisabledEvent", actionObject := obj },
                    Emitted.MuteMemeForMeStatusChanged false],
          state := { s with voicemodState.muteMemeForMeStatus := some false },
          sent := [], thrown := none }
      ∧ onMessage o s (Except.ok { action := some "badLanguageEnabledEvent", actionObject := obj }) =
        { emits := [Emitted.AllEvents { action := some "badLanguageEnabledEvent", actionObject := obj },
                    Emitted.BadLanguageStatusChanged true],
          state := s, sent := [], thrown := none }
      ∧ onMessage o s (Except.ok { action := some "badLanguageDisabledEvent", actionObject := obj }) =
        { emits := [Emitted.AllEvents { action := some "badLanguageDisabledEvent", actionObject := obj },
                    Emitted.BadLanguageStatusChanged false],
          state := s, sent := [], thrown := none })
    ∧ (∀ (v : String) (obj : ActionObject), obj.voiceID = some v →
        canSend s "getVoices" = true →
        onMessage o s (Except.ok { action := some "voiceLoadedEvent", actionObject := obj }) =
          { emits := [Emitted.AllEvents { action := some "voiceLoadedEvent", actionObject := obj },
                      Emitted.VoiceListChanged o.voices,
                      Emitted.VoiceChanged ((o.voices.filter (fun w => some w.id = some v)).head?)],
            state := { s with voicemodState :=
              { s.voicemodState with currentVoice := some v, voiceList := some o.voices } },
            sent := ["getVoices"], thrown := none })
    ∧ (∀ a : String, jsEndsWith a "Event" = true → a ≠ "" → a ≠ "registerClient" →
        a ∉ ["voiceChangerEnabledEvent", "voiceChangerDisabledEvent",
             "backgroundEffectsEnabledEvent", "backgroundEffectsDisabledEvent",
             "hearMySelfEnabledEvent", "hearMySelfDisabledEvent",
             "muteMicEnabledEvent", "muteMicDisabledEvent",
             "muteMemeForMeEnabledEvent", "muteMemeForMeDisabledEvent",
             "voiceLoadedEvent", "badLanguageEnabledEvent", "badLanguageDisabledEvent"] →
        onMessage o s (Except.ok { action := some a }) =
          { emits := [Emitted.AllEvents { action := some a }],
            state := s, sent := [],
            thrown := some ("Unknown event: " ++ a) }) := by
  refine ⟨?_, ?_, ?_⟩
  · intro obj
    exact ⟨rfl, rfl, rfl, rfl, rfl, rfl, rfl, rfl, rfl, rfl, rfl, rfl⟩
  · intro v obj hv hsend
    rw [onMessage_voiceLoaded]
    simp only [canSend, Bool.and_eq_true, Bool.or_eq_true] at hsend
    have hw : s.ws.isSome = true := hsend.1
    have hcon : s.connected = true := by
      rcases hsend.2 with h | h
      · exact h
      · simp at h
    unfold onVoiceChange getVoiceFromId getVoices
    simp [canSend, hw, hcon, hv]
  · intro a h1 h2 h3 hmem
    simp only [List.mem_cons, List.not_mem_nil, or_false, not_or] at hmem
    unfold onMessage
    simp only [truthyStr]
    rw [if_neg, if_neg, if_neg, if_pos]
    · split
      all_goals simp_all
    · constructor
      · simpa using h2
      · exact h1
    · simp
    · simp [h3]
    · simp

/-- C8 witness: the amended theorem at a concrete session with a stale
cached voice list and a fresh one at the oracle, plus an unknown
`mysteryEvent` name. -/
theorem C8_event_table_witness :
    onMessage { voices := [{ id := "v42", friendlyName := "Fresh" }] }
        { connected := true, ws := some (),
          voicemodState := { voiceList := some [{ id := "v42", friendlyName := "Stale" }] } }
        (Except.ok { action := some "voiceLoadedEvent", actionObject := { voiceID := some "v42" } }) =
      { emits := [Emitted.AllEvents { action := some "voiceLoadedEvent", actionObject := { voiceID := some "v42" } },
                  Emitted.VoiceListChanged [{ id := "v42", friendlyName := "Fresh" }],
                  Emitted.VoiceChanged (some { id := "v42", friendlyName := "Fresh" })],
        state := { connected := true, ws := some (),
                   voicemodState := { voiceList := some [{ id := "v42", friendlyName := "Fresh" }],
                                      currentVoice := some "v42" } },
        sent := ["getVoices"], thrown := none }
    ∧ onMessage {} {} (Except.ok { action := some "mysteryEvent" }) =
      { emits := [Emitted.AllEvents { action := some "mysteryEvent" }],
        state := {}, sent := [],
        thrown := some ("Unknown event: " ++ "mysteryEvent") } := by
  have h := C8_event_table { voices := [{ id := "v42", friendlyName := "Fresh" }] }
    { connected := true, ws := some (),
      voicemodState := { voiceList := some [{ id := "v42", friendlyName := "Stale" }] } }
  have h2 := (C8_event_table {} {}).2.2 "mysteryEvent" rfl (by decide) (by decide) (by decide)
  exact ⟨h.2.1 "v42" { voiceID := some "v42" } rfl rfl, h2⟩

/-- C9 counterexample: an inbound frame that fails JSON parsing.  The
handler throws before anything is emitted — in particular nothing is
broadcast on `AllEvents` — contrary to the claim that every inbound
frame, including unparseable ones, is broadcast on the catch-all
channel. -/
theorem C9_counterexample :
    onMessage {} {} (Except.error "Unexpected token") =
      { emits := [], state := {}, sent := [], thrown := some "Unexpected token" } := rfl

/-- C9 (amended): every inbound frame that parses is broadcast on
`AllEvents` first — before any classification-specific emit, cache
update, or classification error — regardless of how classification
turns out; but a frame that fails JSON parsing throws out of the
handler with nothing emitted at all. -/
theorem C9_allEvents_first (o : Oracle) (s : SessionState) :
    (∀ data : MessageEvent,
      (onMessage o s (Except.ok data)).emits.head? = some (Emitted.AllEvents data))
    ∧ (∀ e : String,
      onMessage o s (Except.error e) =
        { emits := [], state := s, sent := [], thrown := some e }) := by
  constructor
  · intro data
    unfold onMessage
    repeat' split
    all_goals simp_all
  · intro e
    rfl

end Voicemod
